import Mathlib

/-
Verification of the lila JSON serialization subsystem (Siren hypermedia
library): a shallow embedding of lila/serialization/json/{marshaler,parser,
action,entity,field,link}.py and lila/core/{common,field,action,link}.py,
with the parts of the repository that are referenced but absent from the
sources (the Method enum, adjust_relations, and the Entity /
EmbeddedRepresentation classes of lila/core/entity.py) modelled from the
specification.

Python values decoded from / encodable to JSON are modelled by `Json`;
arbitrary Python values handed to the library (which may fail JSON
serialization) by `PyVal`.  Python exceptions are modelled by `PyErr`
(a kind - TypeError, ValueError, KeyError, ... - plus the message);
operations that may raise return `Except PyErr`.
-/

namespace Lila

/-- A JSON-compatible value: what json.loads produces (floats are not used by
the claims and are omitted; numbers are integers). -/
inductive Json where
  | null
  | bool (b : Bool)
  | num (n : Int)
  | str (s : String)
  | arr (items : List Json)
  | obj (entries : List (String × Json))

/-- An arbitrary Python value passed to the library from outside: the
JSON-compatible shapes plus tuples, sets and opaque objects (the latter two
are not JSON-serializable).  `object name` stands for an instance of a
non-serializable class; the name is only used for its repr. -/
inductive PyVal where
  | none
  | bool (b : Bool)
  | int (n : Int)
  | str (s : String)
  | list (items : List PyVal)
  | tuple (items : List PyVal)
  | dict (entries : List (PyVal × PyVal))
  | set (items : List PyVal)
  | object (name : String)

/-- The kind of a raised Python exception. -/
inductive ErrKind where
  | typeError
  | valueError
  | keyError
  | attributeError
deriving Repr, DecidableEq

/-- A raised Python exception: its kind and its message. -/
structure PyErr where
  kind : ErrKind
  msg : String
deriving Repr, DecidableEq

/-- Lookup in a JSON object's entry list (Python dict indexing, first match:
dicts produced by json.loads have unique keys). -/
def lookupKey (entries : List (String × Json)) (key : String) : Option Json :=
  match entries with
  | [] => Option.none
  | (k, v) :: rest => if k = key then some v else lookupKey rest key

/-- Insert into a JSON object's entry list the way assignment into a Python
dict does: an existing key keeps its position and gets the new value, a new
key is appended. -/
def upsert (entries : List (String × Json)) (key : String) (value : Json) :
    List (String × Json) :=
  match entries with
  | [] => [(key, value)]
  | (k, v) :: rest =>
    if k = key then (k, value) :: rest else (k, v) :: upsert rest key value

/-- Rebuild a dict from dumped key/value pairs the way json.loads does:
entries are assigned left to right, a repeated key is overwritten. -/
def dedupEntries (entries : List (String × Json)) : List (String × Json) :=
  entries.foldl (fun acc kv => upsert acc kv.1 kv.2) []

/-- How json.dumps renders a non-string dict key: str as itself, int in
decimal, True/False as "true"/"false", None as "null"; every other key type
raises TypeError (modelled as `Option.none`). -/
def jsonKeyOf : PyVal → Option String
  | .str s => some s
  | .int n => some (toString n)
  | .bool true => some "true"
  | .bool false => some "false"
  | .none => some "null"
  | _ => Option.none

mutual
/-- json.loads(json.dumps(v)) on an arbitrary Python value: `Option.none`
models the TypeError raised by json.dumps on a set, an opaque object or a
dict key of unsupported type.  Tuples serialize as JSON arrays; non-string
dict keys are stringified per `jsonKeyOf`; duplicate stringified keys are
merged by json.loads with the last value winning. -/
def dumpsLoads : PyVal → Option Json
  | .none => some Json.null
  | .bool b => some (Json.bool b)
  | .int n => some (Json.num n)
  | .str s => some (Json.str s)
  | .list items => (dumpsLoadsList items).map Json.arr
  | .tuple items => (dumpsLoadsList items).map Json.arr
  | .dict entries => (dumpsLoadsEntries entries).map (fun kvs => Json.obj (dedupEntries kvs))
  | .set _ => Option.none
  | .object _ => Option.none

/-- Elementwise `dumpsLoads` over a list, failing if any element fails. -/
def dumpsLoadsList : List PyVal → Option (List Json)
  | [] => some []
  | x :: xs =>
    match dumpsLoads x, dumpsLoadsList xs with
    | some j, some js => some (j :: js)
    | _, _ => Option.none

/-- Entrywise `dumpsLoads` over dict entries (keys via `jsonKeyOf`). -/
def dumpsLoadsEntries : List (PyVal × PyVal) → Option (List (String × Json))
  | [] => some []
  | (k, v) :: rest =>
    match jsonKeyOf k, dumpsLoads v, dumpsLoadsEntries rest with
    | some ks, some j, some js => some ((ks, j) :: js)
    | _, _, _ => Option.none
end

/-- The `_ensure_json` helper of lila/serialization/json/parser.py:
json.loads(json.dumps(data)), with the TypeError from a non-serializable
value converted to ValueError "Specified data are not a valid JSON object". -/
def ensure_json (data : PyVal) : Except PyErr Json :=
  match dumpsLoads data with
  | some adjusted => .ok adjusted
  | Option.none => .error ⟨.valueError, "Specified data are not a valid JSON object"⟩

mutual
/-- Python repr of a JSON-decoded value (used by str() on containers):
None/True/False, decimal integers, single-quoted strings, bracketed lists,
braced dicts. -/
def pyReprJ : Json → String
  | .null => "None"
  | .bool true => "True"
  | .bool false => "False"
  | .num n => toString n
  | .str s => "'" ++ s ++ "'"
  | .arr items => "[" ++ String.intercalate ", " (pyReprJList items) ++ "]"
  | .obj entries => "\x7b" ++ String.intercalate ", " (pyReprJEntries entries) ++ "\x7d"

/-- Reprs of the items of a list. -/
def pyReprJList : List Json → List String
  | [] => []
  | x :: xs => pyReprJ x :: pyReprJList xs

/-- Reprs of the entries of a dict, as "key: value" pieces. -/
def pyReprJEntries : List (String × Json) → List String
  | [] => []
  | (k, v) :: rest => ("'" ++ k ++ "': " ++ pyReprJ v) :: pyReprJEntries rest
end

/-- Python str() of a JSON-decoded value: a string is itself, anything else
its repr (str(None) = "None", str(5) = "5", str(True) = "True", ...). -/
def pyStr : Json → String
  | .str s => s
  | j => pyReprJ j

mutual
/-- Python repr of an arbitrary Python value (sets print braced, an empty
set as set(), a one-element tuple with a trailing comma; an opaque object
prints as an abstract <name> placeholder - its memory address is
irrelevant to every claim). -/
def pyReprP : PyVal → String
  | .none => "None"
  | .bool true => "True"
  | .bool false => "False"
  | .int n => toString n
  | .str s => "'" ++ s ++ "'"
  | .list items => "[" ++ String.intercalate ", " (pyReprPList items) ++ "]"
  | .tuple [x] => "(" ++ pyReprP x ++ ",)"
  | .tuple items => "(" ++ String.intercalate ", " (pyReprPList items) ++ ")"
  | .dict entries => "\x7b" ++ String.intercalate ", " (pyReprPEntries entries) ++ "\x7d"
  | .set [] => "set()"
  | .set items => "\x7b" ++ String.intercalate ", " (pyReprPList items) ++ "\x7d"
  | .object name => "<" ++ name ++ ">"

/-- Reprs of the items of a Python sequence. -/
def pyReprPList : List PyVal → List String
  | [] => []
  | x :: xs => pyReprP x :: pyReprPList xs

/-- Reprs of the entries of a Python dict, as "key: value" pieces. -/
def pyReprPEntries : List (PyVal × PyVal) → List String
  | [] => []
  | (k, v) :: rest => (pyReprP k ++ ": " ++ pyReprP v) :: pyReprPEntries rest
end

/-- Python str() of an arbitrary Python value. -/
def pyStrP : PyVal → String
  | .str s => s
  | v => pyReprP v

mutual
/-- The Python value a JSON-decoded value is: the inclusion of `Json` into
`PyVal` (json.loads yields dicts, lists, strs, ints, bools and None). -/
def Json.toPy : Json → PyVal
  | .null => .none
  | .bool b => .bool b
  | .num n => .int n
  | .str s => .str s
  | .arr items => .list (Json.toPyList items)
  | .obj entries => .dict (Json.toPyEntries entries)

/-- Elementwise `Json.toPy`. -/
def Json.toPyList : List Json → List PyVal
  | [] => []
  | x :: xs => Json.toPy x :: Json.toPyList xs

/-- Entrywise `Json.toPy` (keys become Python strings). -/
def Json.toPyEntries : List (String × Json) → List (PyVal × PyVal)
  | [] => []
  | (k, v) :: rest => (.str k, Json.toPy v) :: Json.toPyEntries rest
end

/-- Python subscripting data[key] on a JSON-decoded value with a string key:
a dict yields the entry or raises KeyError; list, str, int, bool and None
raise TypeError (not subscriptable by a string). -/
def getItem (data : Json) (key : String) : Except PyErr Json :=
  match data with
  | .obj entries =>
    match lookupKey entries key with
    | some v => .ok v
    | Option.none => .error ⟨.keyError, key⟩
  | _ => .error ⟨.typeError, "data are not subscriptable by string keys"⟩

/-- Python data.get(key, default) on a JSON-decoded value: only dicts have
the get method - every other shape raises AttributeError. -/
def dictGet (data : Json) (key : String) (dflt : Json) : Except PyErr Json :=
  match data with
  | .obj entries => .ok ((lookupKey entries key).getD dflt)
  | _ => .error ⟨.attributeError, "data have no attribute get"⟩

/-- Python iteration over a JSON-decoded value: a list yields its items, a
str its characters (as one-character strings), a dict its keys; int, bool
and None raise TypeError. -/
def iterate (data : Json) : Except PyErr (List Json) :=
  match data with
  | .arr items => .ok items
  | .str s => .ok (s.toList.map (fun c => Json.str (String.singleton c)))
  | .obj entries => .ok (entries.map (fun kv => Json.str kv.1))
  | _ => .error ⟨.typeError, "data are not iterable"⟩

/-- The try data[key] / except KeyError: raise ValueError(msg) pattern used
by the parser for required keys: a missing key becomes the given ValueError,
a TypeError (data not a mapping) propagates unchanged. -/
def requiredKey (data : Json) (key msg : String) : Except PyErr Json :=
  match getItem data key with
  | .ok v => .ok v
  | .error e =>
    match e.kind with
    | .keyError => .error ⟨.valueError, msg⟩
    | _ => .error e

/-- Python dict lookup with a string key on raw (unensured) Python data, as
done by the per-component ActionParser: a dict is searched for an equal
string key (dict keys are unique, first match); any other shape raises
TypeError. -/
def pySubscript (data : PyVal) (key : String) : Except PyErr PyVal :=
  match data with
  | .dict entries => pyLookup entries key
  | _ => .error ⟨.typeError, "data are not subscriptable by string keys"⟩
where
  /-- Search the entries for a string key equal to `key`. -/
  pyLookup : List (PyVal × PyVal) → String → Except PyErr PyVal
  | [], k => .error ⟨.keyError, k⟩
  | (PyVal.str ks, v) :: rest, k => if ks = k then .ok v else pyLookup rest k
  | _ :: rest, k => pyLookup rest k

/-- Python iteration over raw Python data: lists, tuples and sets yield
items, a str its characters, a dict its keys; everything else raises
TypeError. -/
def pyIterate (data : PyVal) : Except PyErr (List PyVal) :=
  match data with
  | .list items => .ok items
  | .tuple items => .ok items
  | .set items => .ok items
  | .str s => .ok (s.toList.map (fun c => PyVal.str (String.singleton c)))
  | .dict entries => .ok (entries.map (fun kv => kv.1))
  | _ => .error ⟨.typeError, "data are not iterable"⟩

/-- The InputType enum of lila/core/field.py: the supported input types and
their wire values (including the CHECKBOX member whose value is "ratio", as
in the source). -/
inductive InputType where
  | hidden
  | text
  | search
  | phone
  | url
  | email
  | password
  | datetime
  | date
  | month
  | week
  | time
  | datetimeLocal
  | number
  | range
  | color
  | checkbox
  | file
  | submit
  | image
  | reset
  | button
deriving Repr, DecidableEq

/-- The wire value of each InputType member, from lila/core/field.py. -/
def InputType.value : InputType → String
  | .hidden => "hidden"
  | .text => "text"
  | .search => "search"
  | .phone => "tel"
  | .url => "url"
  | .email => "email"
  | .password => "password"
  | .datetime => "datetime"
  | .date => "date"
  | .month => "month"
  | .week => "week"
  | .time => "time"
  | .datetimeLocal => "datetime-local"
  | .number => "number"
  | .range => "range"
  | .color => "color"
  | .checkbox => "ratio"
  | .file => "file"
  | .submit => "submit"
  | .image => "image"
  | .reset => "reset"
  | .button => "button"

/-- The Python member name of each InputType member (HIDDEN, TEXT, ...). -/
def InputType.pyName : InputType → String
  | .hidden => "HIDDEN"
  | .text => "TEXT"
  | .search => "SEARCH"
  | .phone => "PHONE"
  | .url => "URL"
  | .email => "EMAIL"
  | .password => "PASSWORD"
  | .datetime => "DATETIME"
  | .date => "DATE"
  | .month => "MONTH"
  | .week => "WEEK"
  | .time => "TIME"
  | .datetimeLocal => "DATETIME_LOCAL"
  | .number => "NUMBER"
  | .range => "RANGE"
  | .color => "COLOR"
  | .checkbox => "CHECKBOX"
  | .file => "FILE"
  | .submit => "SUBMIT"
  | .image => "IMAGE"
  | .reset => "RESET"
  | .button => "BUTTON"

/-- Python str() of an InputType member: lila/core/field.py defines no
custom string conversion for InputType, so the enum default
"InputType.MEMBER" applies. -/
def InputType.pyStr (t : InputType) : String :=
  "InputType." ++ t.pyName

/-- The InputType(value) enum lookup: the member whose wire value is the
given string, if any (a failed lookup raises ValueError in Python). -/
def inputTypeOfValue (s : String) : Option InputType :=
  if s = "hidden" then some .hidden
  else if s = "text" then some .text
  else if s = "search" then some .search
  else if s = "tel" then some .phone
  else if s = "url" then some .url
  else if s = "email" then some .email
  else if s = "password" then some .password
  else if s = "datetime" then some .datetime
  else if s = "date" then some .date
  else if s = "month" then some .month
  else if s = "week" then some .week
  else if s = "time" then some .time
  else if s = "datetime-local" then some .datetimeLocal
  else if s = "number" then some .number
  else if s = "range" then some .range
  else if s = "color" then some .color
  else if s = "ratio" then some .checkbox
  else if s = "file" then some .file
  else if s = "submit" then some .submit
  else if s = "image" then some .image
  else if s = "reset" then some .reset
  else if s = "button" then some .button
  else Option.none

/-- Modelled from the spec: the Method enum of lila/core/action.py, which
the serialization modules import but which is absent from the sources.
Per the spec the action method is an enum over GET/PUT/POST/DELETE/PATCH
with a total mapping to/from its wire string; its members compare equal to
their wire string (so the Action constructor, which checks membership of
the method in the set of supported method strings, accepts enum members -
as the spec's parse scenarios and defaults require). -/
inductive Method where
  | get
  | put
  | post
  | delete
  | patch
deriving Repr, DecidableEq

/-- The wire value of each Method member. -/
def Method.value : Method → String
  | .get => "GET"
  | .put => "PUT"
  | .post => "POST"
  | .delete => "DELETE"
  | .patch => "PATCH"

/-- The Method(value) enum lookup: the member whose wire value is the given
string, if any. -/
def methodOfValue (s : String) : Option Method :=
  if s = "GET" then some .get
  else if s = "PUT" then some .put
  else if s = "POST" then some .post
  else if s = "DELETE" then some .delete
  else if s = "PATCH" then some .patch
  else Option.none

/-- The _SUPPORTED_METHODS set of lila/core/action.py. -/
def supported_methods : List String :=
  ["GET", "PUT", "POST", "DELETE", "PATCH"]

/-- A Siren field (lila/core/field.py): attributes as stored after
construction - the constructor coerces name/value/title to strings and the
classes to a tuple of strings, and validates the input type. -/
structure Field where
  name : String
  classes : List String
  input_type : InputType
  value : Option String
  title : Option String
deriving Repr, DecidableEq

/-- A Siren action (lila/core/action.py), attributes as stored after
construction.  The method is a Method member (see the Method model note). -/
structure Action where
  name : String
  target : String
  classes : List String
  method : Method
  title : Option String
  fields : List Field
  encoding_type : Option String
deriving Repr, DecidableEq

/-- A Siren link (lila/core/link.py), attributes as stored after
construction. -/
structure Link where
  relations : List String
  target : String
  classes : List String
  title : Option String
  target_media_type : Option String
deriving Repr, DecidableEq

/-- A Siren embedded link (lila/core/link.py EmbeddedLink: same shape as
Link; a distinct type, as in the source). -/
structure EmbeddedLink where
  relations : List String
  target : String
  classes : List String
  title : Option String
  target_media_type : Option String
deriving Repr, DecidableEq

mutual
/-- Modelled from the spec: the EmbeddedRepresentation class of
lila/core/entity.py (absent from the sources): relations (non-empty),
classes, properties (string-keyed mapping of JSON-safe values), entities
(sub-entities of either kind), links, actions (names unique), title. -/
inductive EmbeddedRepresentation where
  | mk (relations : List String) (classes : List String)
      (properties : List (String × Json)) (entities : List SubEntity)
      (links : List Link) (actions : List Action) (title : Option String)

/-- A sub-entity of an Entity or EmbeddedRepresentation: per the spec this
is polymorphic over EmbeddedLink and EmbeddedRepresentation, discriminated
structurally (an EmbeddedLink bears a target attribute, an
EmbeddedRepresentation does not). -/
inductive SubEntity where
  | link (l : EmbeddedLink)
  | representation (r : EmbeddedRepresentation)
end

/-- Modelled from the spec: the Entity class of lila/core/entity.py (absent
from the sources): classes, properties, entities, links, actions (names
unique), title. -/
structure Entity where
  classes : List String
  properties : List (String × Json)
  entities : List SubEntity
  links : List Link
  actions : List Action
  title : Option String

/-- Relations of an embedded representation. -/
def EmbeddedRepresentation.relations : EmbeddedRepresentation → List String
  | .mk r _ _ _ _ _ _ => r

/-- Classes of an embedded representation. -/
def EmbeddedRepresentation.classes : EmbeddedRepresentation → List String
  | .mk _ c _ _ _ _ _ => c

/-- Properties of an embedded representation. -/
def EmbeddedRepresentation.properties : EmbeddedRepresentation → List (String × Json)
  | .mk _ _ p _ _ _ _ => p

/-- Sub-entities of an embedded representation. -/
def EmbeddedRepresentation.entities : EmbeddedRepresentation → List SubEntity
  | .mk _ _ _ e _ _ _ => e

/-- Links of an embedded representation. -/
def EmbeddedRepresentation.links : EmbeddedRepresentation → List Link
  | .mk _ _ _ _ l _ _ => l

/-- Actions of an embedded representation. -/
def EmbeddedRepresentation.actions : EmbeddedRepresentation → List Action
  | .mk _ _ _ _ _ a _ => a

/-- Title of an embedded representation. -/
def EmbeddedRepresentation.title : EmbeddedRepresentation → Option String
  | .mk _ _ _ _ _ _ t => t

/-- Title of an entity. -/
def optStr (j : Json) : Option String :=
  match j with
  | Json.null => Option.none
  | j => some (pyStr j)

/-- The adjust_classes function of lila/core/common.py:
tuple(str(class_) for class_ in classes); iterating a non-iterable raises
TypeError (here classes is a JSON-decoded value). -/
def adjust_classes (classes : Json) : Except PyErr (List String) :=
  (iterate classes).map (fun items => items.map pyStr)

/-- Modelled from the spec: the adjust_relations function of
lila/core/common.py (called by lila/core/link.py but absent from
common.py's source): converts the iterable of relations to a tuple of
strings - per the spec the relations of Link, EmbeddedLink and
EmbeddedRepresentation form a non-empty ordered sequence of strings, so an
empty sequence is rejected with ValueError. -/
def adjust_relations (relations : Json) : Except PyErr (List String) := do
  let rels ← (iterate relations).map (fun items => items.map pyStr)
  if rels.isEmpty then
    .error ⟨.valueError, "Relations are empty"⟩
  else
    .ok rels

/-- The dict(properties) step of adjust_properties (lila/core/common.py):
a dict is taken as is; a sequence must consist of key/value pairs
(two-element lists or tuples, or two-character strings); anything else -
including a sequence of non-pairs - fails (TypeError/ValueError inside
dict(), caught by adjust_properties). -/
def dictOfPairs : PyVal → Option (List (PyVal × PyVal))
  | .dict entries => some entries
  | .list items => pairItems items
  | .tuple items => pairItems items
  | .set items => pairItems items
  | .str s => if s.isEmpty then some [] else Option.none
  | _ => Option.none
where
  /-- Each sequence item as a key/value pair, if it has exactly two parts. -/
  pairItems : List PyVal → Option (List (PyVal × PyVal))
  | [] => some []
  | item :: rest =>
    match pairOf item, pairItems rest with
    | some kv, some kvs => some (kv :: kvs)
    | _, _ => Option.none
  /-- A single item as a key/value pair. -/
  pairOf : PyVal → Option (PyVal × PyVal)
  | .list [k, v] => some (k, v)
  | .tuple [k, v] => some (k, v)
  | .str s =>
    match s.toList with
    | [a, b] => some (.str (String.singleton a), .str (String.singleton b))
    | _ => Option.none
  | _ => Option.none

/-- The per-entry loop of adjust_properties: each key is stringified with
str(), each value is round-tripped through json.dumps/json.loads, a
non-serializable value fails with ValueError naming the (stringified) key;
entries are assigned into the result dict left to right. -/
def adjustPropertiesLoop (entries : List (PyVal × PyVal))
    (acc : List (String × Json)) : Except PyErr (List (String × Json)) :=
  match entries with
  | [] => .ok acc
  | (name, value) :: rest =>
    let adjusted_name := pyStrP name
    match dumpsLoads value with
    | some adjusted_value =>
      adjustPropertiesLoop rest (upsert acc adjusted_name adjusted_value)
    | Option.none =>
      .error ⟨.valueError, "Unsupported value for property '" ++ adjusted_name ++ "'"⟩

/-- The adjust_properties function of lila/core/common.py: dict(properties)
(failure becomes ValueError "Can't create dictionary from properties"),
then stringify every key and JSON-round-trip every value, failing with
ValueError "Unsupported value for property 'name'" on a value json cannot
serialize. -/
def adjust_properties (properties : PyVal) : Except PyErr (List (String × Json)) :=
  match dictOfPairs properties with
  | some entries => adjustPropertiesLoop entries []
  | Option.none => .error ⟨.valueError, "Can't create dictionary from properties"⟩

/-- The Field constructor of lila/core/field.py, applied to JSON-decoded
arguments (as the parser does): name is coerced with str(), classes via
adjust_classes (a TypeError from a non-iterable propagates), the input
type must be an InputType member (guaranteed here by typing: the parser
only passes members), value and title are kept as None or coerced with
str(). -/
def mkField (name : Json) (classes : Json) (input_type : InputType)
    (value : Json) (title : Json) : Except PyErr Field := do
  let cls ← adjust_classes classes
  .ok { name := pyStr name, classes := cls, input_type := input_type,
        value := optStr value, title := optStr title }

/-- The Action constructor of lila/core/action.py, applied to JSON-decoded
arguments and an already-parsed fields list: name and target are coerced
with str(), classes via adjust_classes, the method must be in
_SUPPORTED_METHODS (a Method member is, through its wire string - see the
Method model note), the fields must all be Field instances (guaranteed by
typing), and the encoding type defaults to
"application/x-www-form-urlencoded" exactly when no explicit type is given
and the fields tuple is non-empty. -/
def mkAction (name : Json) (target : Json) (classes : Json) (method : Method)
    (title : Json) (encoding_type : Json) (fields : List Field) :
    Except PyErr Action := do
  let cls ← adjust_classes classes
  if supported_methods.contains method.value then
    .ok { name := pyStr name, target := pyStr target, classes := cls,
          method := method, title := optStr title, fields := fields,
          encoding_type :=
            match encoding_type with
            | Json.null =>
              if fields.isEmpty then Option.none
              else some "application/x-www-form-urlencoded"
            | j => some (pyStr j) }
  else
    .error ⟨.valueError, "Method '" ++ method.value ++ "' is not supported"⟩

/-- The Link constructor of lila/core/link.py, applied to JSON-decoded
arguments: relations via adjust_relations (modelled; non-empty strings),
target coerced with str(), classes via adjust_classes, title and target
media type kept as None or coerced with str(). -/
def mkLink (relations : Json) (target : Json) (classes : Json)
    (title : Json) (target_media_type : Json) : Except PyErr Link := do
  let rels ← adjust_relations relations
  let cls ← adjust_classes classes
  .ok { relations := rels, target := pyStr target, classes := cls,
        title := optStr title, target_media_type := optStr target_media_type }

/-- The EmbeddedLink constructor of lila/core/link.py (same shape as Link). -/
def mkEmbeddedLink (relations : Json) (target : Json) (classes : Json)
    (title : Json) (target_media_type : Json) : Except PyErr EmbeddedLink := do
  let rels ← adjust_relations relations
  let cls ← adjust_classes classes
  .ok { relations := rels, target := pyStr target, classes := cls,
        title := optStr title, target_media_type := optStr target_media_type }

/-- Whether two actions of the list share a name (the uniqueness invariant
of Entity and EmbeddedRepresentation actions, per the spec). -/
def hasDuplicateActionNames (actions : List Action) : Bool :=
  match actions with
  | [] => false
  | a :: rest => rest.any (fun b => b.name == a.name) || hasDuplicateActionNames rest

/-- Modelled from the spec: the Entity constructor of lila/core/entity.py
(absent from the sources): classes via adjust_classes, properties via
adjust_properties (lila/core/common.py), sub-entities / links / actions
type-checked (guaranteed by typing), action names unique, title None or
str(). -/
def mkEntity (classes : Json) (properties : PyVal) (entities : List SubEntity)
    (links : List Link) (actions : List Action) (title : Json) :
    Except PyErr Entity := do
  let cls ← adjust_classes classes
  let props ← adjust_properties properties
  if hasDuplicateActionNames actions then
    .error ⟨.valueError, "Some of the actions have the same name"⟩
  else
    .ok { classes := cls, properties := props, entities := entities,
          links := links, actions := actions, title := optStr title }

/-- Modelled from the spec: the EmbeddedRepresentation constructor of
lila/core/entity.py (absent from the sources): as Entity, plus relations
via adjust_relations (non-empty strings). -/
def mkEmbeddedRepresentation (relations : Json) (classes : Json)
    (properties : PyVal) (entities : List SubEntity) (links : List Link)
    (actions : List Action) (title : Json) :
    Except PyErr EmbeddedRepresentation := do
  let rels ← adjust_relations relations
  let cls ← adjust_classes classes
  let props ← adjust_properties properties
  if hasDuplicateActionNames actions then
    .error ⟨.valueError, "Some of the actions have the same name"⟩
  else
    .ok (EmbeddedRepresentation.mk rels cls props entities links actions (optStr title))

/-- The except (TypeError, ValueError): raise ValueError(msg) pattern the
parser wraps around nested-collection parsing: both kinds become the given
ValueError, other kinds propagate. -/
def wrapParseErrors {α : Type} (result : Except PyErr α) (msg : String) :
    Except PyErr α :=
  match result with
  | .ok v => .ok v
  | .error e =>
    match e.kind with
    | .typeError => .error ⟨.valueError, msg⟩
    | .valueError => .error ⟨.valueError, msg⟩
    | _ => .error e

/-- A list comprehension [f(item) for item in data] wrapped per
`wrapParseErrors`: iterating a non-iterable or a failing item both become
the given ValueError. -/
def parseItemList {α : Type} (data : Json) (f : Json → Except PyErr α)
    (msg : String) : Except PyErr (List α) :=
  wrapParseErrors (do
    let items ← iterate data
    items.mapM f) msg

/-- The body of JSONParser.parse_field (lila/serialization/json/parser.py)
after _ensure_json: the required name key, class defaulting to (), the
input type parsed from str(data.get("type", "text")) and required to be a
recognized InputType value, value and title defaulting to None, and the
Field constructor (whose ValueError, per the source, is re-raised
unchanged). -/
def parse_field_data (data : Json) : Except PyErr Field := do
  let name ← requiredKey data "name" "Field data do not have required 'name' key"
  let classes ← dictGet data "class" (Json.arr [])
  let input_type_value := pyStr (← dictGet data "type" (Json.str "text"))
  let input_type ← match inputTypeOfValue input_type_value with
    | some t => Except.ok t
    | Option.none => Except.error ⟨.valueError, "Unsupported input type is specified"⟩
  let value ← dictGet data "value" Json.null
  let title ← dictGet data "title" Json.null
  mkField name classes input_type value title

/-- JSONParser.parse_field: _ensure_json, then the body. -/
def parse_field (data : PyVal) : Except PyErr Field := do
  parse_field_data (← ensure_json data)

/-- The Method lookup of JSONParser.parse_action: the generator
next(m for m in Method if m.value == method_value) matches only the string
equal to a member's value (StopIteration on anything else, converted by the
caller). -/
def findMethodJson (j : Json) : Option Method :=
  match j with
  | .str s => methodOfValue s
  | _ => Option.none

/-- The body of JSONParser.parse_action after _ensure_json: required name,
class default (), method defaulting to "GET" and required to be a
recognized Method value, required href, title/type defaulting to None,
fields parsed elementwise via parse_field (failures wrapped as "Failed to
parse action fields"), then the Action constructor.  The nested
parse_field call receives already-JSON data, on which _ensure_json is the
identity, so the body is applied directly. -/
def parse_action_data (data : Json) : Except PyErr Action := do
  let name ← requiredKey data "name" "Action data do not have required 'name' key"
  let classes ← dictGet data "class" (Json.arr [])
  let method_value ← dictGet data "method" (Json.str "GET")
  let method ← match findMethodJson method_value with
    | some m => Except.ok m
    | Option.none => Except.error ⟨.valueError, "Unsupported method is specified"⟩
  let target ← requiredKey data "href" "Action data do not have required 'href' key"
  let title ← dictGet data "title" Json.null
  let encoding_type ← dictGet data "type" Json.null
  let fields_data ← dictGet data "fields" (Json.arr [])
  let fields ← parseItemList fields_data parse_field_data "Failed to parse action fields"
  mkAction name target classes method title encoding_type fields

/-- JSONParser.parse_action: _ensure_json, then the body. -/
def parse_action (data : PyVal) : Except PyErr Action := do
  parse_action_data (← ensure_json data)

/-- The body of JSONParser.parse_link after _ensure_json: required rel,
class default (), required href, title/type defaulting to None, then the
Link constructor. -/
def parse_link_data (data : Json) : Except PyErr Link := do
  let relations ← requiredKey data "rel" "Link data do not have required 'rel' key"
  let classes ← dictGet data "class" (Json.arr [])
  let target ← requiredKey data "href" "Link data do not have required 'href' key"
  let title ← dictGet data "title" Json.null
  let target_media_type ← dictGet data "type" Json.null
  mkLink relations target classes title target_media_type

/-- JSONParser.parse_link: _ensure_json, then the body. -/
def parse_link (data : PyVal) : Except PyErr Link := do
  parse_link_data (← ensure_json data)

/-- The body of JSONParser.parse_embedded_link after _ensure_json: as
parse_link, with the embedded-link messages and the EmbeddedLink
constructor. -/
def parse_embedded_link_data (data : Json) : Except PyErr EmbeddedLink := do
  let relations ← requiredKey data "rel" "Embedded link data do not have required 'rel' key"
  let classes ← dictGet data "class" (Json.arr [])
  let target ← requiredKey data "href" "Embedded link data do not have required 'href' key"
  let title ← dictGet data "title" Json.null
  let target_media_type ← dictGet data "type" Json.null
  mkEmbeddedLink relations target classes title target_media_type

/-- JSONParser.parse_embedded_link: _ensure_json, then the body. -/
def parse_embedded_link (data : PyVal) : Except PyErr EmbeddedLink := do
  parse_embedded_link_data (← ensure_json data)

/-- Helper for the termination of the sub-entity recursion: a value found
in an object's entries is structurally smaller than the object. -/
theorem lookupKey_sizeOf : ∀ (entries : List (String × Json)) (key : String)
    (v : Json), lookupKey entries key = some v → sizeOf v < sizeOf (Json.obj entries)
  | [], _, _, h => by simp [lookupKey] at h
  | (k, w) :: rest, key, v, h => by
    rw [lookupKey] at h
    split at h
    · cases h
      simp
      omega
    · have ih := lookupKey_sizeOf rest key v h
      simp at ih ⊢
      omega

mutual
/-- The body of JSONParser.parse_embedded_representation after
_ensure_json: class and properties defaults, required rel, sub-entities
parsed elementwise via _parse_sub_entity (failures wrapped as "Failed to
parse sub entities of embedded representation"), links and actions parsed
elementwise, title default, then the EmbeddedRepresentation constructor.
The entities collection is fetched with data.get("entities", ()); the
missing-key case yields no items, written here as the direct lookup so the
recursion is visibly on a subterm. -/
def parse_embedded_representation_data (data : Json) :
    Except PyErr EmbeddedRepresentation := do
  let classes ← dictGet data "class" (Json.arr [])
  let properties ← dictGet data "properties" (Json.obj [])
  let relations ← requiredKey data "rel"
      "Embedded representation data do not have required 'rel' key"
  let sub_entities ← wrapParseErrors
      (match data with
       | Json.obj entries =>
         match h : lookupKey entries "entities" with
         | some v => parseSubItems v
         | Option.none => Except.ok []
       | _ => Except.error ⟨ErrKind.attributeError, "data have no attribute get"⟩)
      "Failed to parse sub entities of embedded representation"
  let links ← parseItemList (← dictGet data "links" (Json.arr [])) parse_link_data
      "Failed to parse links of embedded representation"
  let actions ← parseItemList (← dictGet data "actions" (Json.arr [])) parse_action_data
      "Failed to parse actions of embedded representation"
  let title ← dictGet data "title" Json.null
  mkEmbeddedRepresentation relations classes (Json.toPy properties)
      sub_entities links actions title
termination_by (sizeOf data, 0)
decreasing_by
  have hlt := lookupKey_sizeOf entries "entities" v h
  simp_wf
  simp at hlt
  omega

/-- Iteration of the entities collection inside the sub-entity
comprehension: an array parses its items; the items of a non-empty string
(its characters) or of a non-empty object (its keys) are strings, on which
the sub-entity subscript raises TypeError, converted by _parse_sub_entity
to its ValueError - so the first such item fails; a non-iterable value
raises TypeError. -/
def parseSubItems : (v : Json) → Except PyErr (List SubEntity)
  | Json.arr items => parseSubList items
  | Json.str s =>
    if s.isEmpty then .ok []
    else .error ⟨.valueError, "Sub entity data are not a dictionary"⟩
  | Json.obj entries =>
    if entries.isEmpty then .ok []
    else .error ⟨.valueError, "Sub entity data are not a dictionary"⟩
  | _ => .error ⟨.typeError, "data are not iterable"⟩
termination_by v => (sizeOf v, 3)

/-- The sub-entity comprehension itself: parse each item in order, failing
on the first failure. -/
def parseSubList : (items : List Json) → Except PyErr (List SubEntity)
  | [] => .ok []
  | d :: rest => do
    let s ← parse_sub_entity_data d
    let ss ← parseSubList rest
    .ok (s :: ss)
termination_by items => (sizeOf items, 2)

/-- JSONParser._parse_sub_entity: try data["href"] - on success parse an
embedded link, on KeyError parse an embedded representation, on TypeError
(data not a dictionary) raise ValueError "Sub entity data are not a
dictionary". -/
def parse_sub_entity_data (data : Json) : Except PyErr SubEntity :=
  match getItem data "href" with
  | .ok _ => (parse_embedded_link_data data).map SubEntity.link
  | .error e =>
    match e.kind with
    | .keyError => (parse_embedded_representation_data data).map SubEntity.representation
    | _ => .error ⟨.valueError, "Sub entity data are not a dictionary"⟩
termination_by (sizeOf data, 1)
end

/-- JSONParser.parse_embedded_representation: _ensure_json, then the body. -/
def parse_embedded_representation (data : PyVal) : Except PyErr EmbeddedRepresentation := do
  parse_embedded_representation_data (← ensure_json data)

/-- The body of JSONParser.parse_entity after _ensure_json: class and
properties defaults, sub-entities via _parse_sub_entity (wrapped as
"Failed to parse sub entities of entity"), links and actions elementwise,
title default, then the Entity constructor. -/
def parse_entity_data (data : Json) : Except PyErr Entity := do
  let classes ← dictGet data "class" (Json.arr [])
  let properties ← dictGet data "properties" (Json.obj [])
  let sub_entities_data ← dictGet data "entities" (Json.arr [])
  let sub_entities ← wrapParseErrors (parseSubItems sub_entities_data)
      "Failed to parse sub entities of entity"
  let links ← parseItemList (← dictGet data "links" (Json.arr [])) parse_link_data
      "Failed to parse entity links"
  let actions ← parseItemList (← dictGet data "actions" (Json.arr [])) parse_action_data
      "Failed to parse entity actions"
  let title ← dictGet data "title" Json.null
  mkEntity classes (Json.toPy properties) sub_entities links actions title

/-- JSONParser.parse_entity: _ensure_json, then the body. -/
def parse_entity (data : PyVal) : Except PyErr Entity := do
  parse_entity_data (← ensure_json data)

/-- ActionParser.parse_name (lila/serialization/json/action.py): the
component parser wraps raw (unensured) data; subscripting a non-mapping
raises TypeError, converted to ValueError "Failed to get name from action
data"; a missing key is required; the value is coerced with str(). -/
def ActionParser.parse_name (data : PyVal) : Except PyErr String :=
  match pySubscript data "name" with
  | .ok v => .ok (pyStrP v)
  | .error e =>
    match e.kind with
    | .typeError => .error ⟨.valueError, "Failed to get name from action data"⟩
    | .keyError => .error ⟨.valueError, "Action data do not have required 'name' key"⟩
    | _ => .error e

/-- ActionParser.parse_classes: subscript failure on a non-mapping becomes
"Failed to get classes from action data", a missing key defaults to (),
then tuple(str(class_) for class_ in classes) - iterating a non-iterable
becomes "Failed to iterate over classes from action data". -/
def ActionParser.parse_classes (data : PyVal) : Except PyErr (List String) :=
  match pySubscript data "class" with
  | .ok v =>
    (match pyIterate v with
     | .ok items => .ok (items.map pyStrP)
     | .error _ => .error ⟨.valueError, "Failed to iterate over classes from action data"⟩)
  | .error e =>
    match e.kind with
    | .typeError => .error ⟨.valueError, "Failed to get classes from action data"⟩
    | .keyError => .ok []
    | _ => .error e

/-- The Method(value) coercion on a raw Python value, as in
ActionParser.parse_method: only a recognized wire string yields a member. -/
def findMethodPy (v : PyVal) : Option Method :=
  match v with
  | .str s => methodOfValue s
  | _ => Option.none

/-- ActionParser.parse_method: subscript failure on a non-mapping becomes
"Failed to get method from action data", a missing key defaults to
Method.GET.value (hence Method.GET), and an unrecognized value fails with
"Action data contain not supported method". -/
def ActionParser.parse_method (data : PyVal) : Except PyErr Method :=
  match pySubscript data "method" with
  | .ok v =>
    (match findMethodPy v with
     | some m => .ok m
     | Option.none => .error ⟨.valueError, "Action data contain not supported method"⟩)
  | .error e =>
    match e.kind with
    | .typeError => .error ⟨.valueError, "Failed to get method from action data"⟩
    | .keyError => .ok Method.get
    | _ => .error e

/-- ActionParser.parse_target: as parse_name, for the required href key. -/
def ActionParser.parse_target (data : PyVal) : Except PyErr String :=
  match pySubscript data "href" with
  | .ok v => .ok (pyStrP v)
  | .error e =>
    match e.kind with
    | .typeError => .error ⟨.valueError, "Failed to get target from action data"⟩
    | .keyError => .error ⟨.valueError, "Action data do not have required 'href' key"⟩
    | _ => .error e

/-- ActionParser.parse_title: subscript failure on a non-mapping becomes
"Failed to get title from action data", a missing key or a None value
yields None, anything else str(). -/
def ActionParser.parse_title (data : PyVal) : Except PyErr (Option String) :=
  match pySubscript data "title" with
  | .ok PyVal.none => .ok Option.none
  | .ok v => .ok (some (pyStrP v))
  | .error e =>
    match e.kind with
    | .typeError => .error ⟨.valueError, "Failed to get title from action data"⟩
    | .keyError => .ok Option.none
    | _ => .error e

/-- ActionParser.parse_fields: subscript failure on a non-mapping becomes
"Failed to get fields data from action data", a missing key defaults to
(), list() of a non-iterable becomes "Failed to iterate over fields data
from action data", and any failure of the facade's parse_field on an item
becomes "Failed to parse action's fields". -/
def ActionParser.parse_fields (data : PyVal) : Except PyErr (List Field) :=
  match pySubscript data "fields" with
  | .ok v =>
    (match pyIterate v with
     | .ok items =>
       (match items.mapM parse_field with
        | .ok fs => .ok fs
        | .error _ => .error ⟨.valueError, "Failed to parse action's fields"⟩)
     | .error _ =>
       .error ⟨.valueError, "Failed to iterate over fields data from action data"⟩)
  | .error e =>
    match e.kind with
    | .typeError => .error ⟨.valueError, "Failed to get fields data from action data"⟩
    | .keyError => .ok []
    | _ => .error e

/-- ActionParser.parse_encoding_type: subscript failure on a non-mapping
becomes "Failed to get encoding type from action data"; a missing key or a
None value leaves None, which then defaults to
"application/x-www-form-urlencoded" exactly when self.parse_fields() is
non-empty (a failure of parse_fields propagates); a present non-None value
is str()-coerced. -/
def ActionParser.parse_encoding_type (data : PyVal) : Except PyErr (Option String) :=
  match pySubscript data "type" with
  | .ok PyVal.none => do
    let fs ← ActionParser.parse_fields data
    .ok (if fs.isEmpty then Option.none else some "application/x-www-form-urlencoded")
  | .ok v => .ok (some (pyStrP v))
  | .error e =>
    match e.kind with
    | .typeError => .error ⟨.valueError, "Failed to get encoding type from action data"⟩
    | .keyError => do
      let fs ← ActionParser.parse_fields data
      .ok (if fs.isEmpty then Option.none else some "application/x-www-form-urlencoded")
    | _ => .error e

/-- A stored optional string attribute on the wire: None marshals to null. -/
def optJson : Option String → Json
  | some s => Json.str s
  | Option.none => Json.null

/-- JSONMarshaler.marshal_field (lila/serialization/json/marshaler.py),
applied to a domain Field (every attribute access succeeds, so the
AttributeError branches of the source are unreachable here): name, classes
and value/title are taken from the object; the input type is computed as
InputType(str(field.input_type)) - str() of an InputType member is
"InputType.MEMBER" (InputType defines no custom string conversion), and a
string that is not a recognized wire value fails with "Field's input type
is not supported". -/
def marshal_field (field : Field) : Except PyErr Json :=
  match inputTypeOfValue field.input_type.pyStr with
  | some input_type =>
    .ok (Json.obj [("name", Json.str field.name),
                   ("class", Json.arr (field.classes.map Json.str)),
                   ("type", Json.str input_type.value),
                   ("value", optJson field.value),
                   ("title", optJson field.title)])
  | Option.none => .error ⟨.valueError, "Field's input type is not supported"⟩

/-- JSONMarshaler.marshal_action applied to a domain Action: the stored
method is a Method member, so the isinstance(method, Method) guard of the
source passes and method.value is emitted; the fields are marshaled by
delegating to marshal_field, any ValueError being wrapped as "Failed to
marshal action's fields". -/
def marshal_action (action : Action) : Except PyErr Json :=
  match action.fields.mapM marshal_field with
  | .ok fields =>
    .ok (Json.obj [("name", Json.str action.name),
                   ("class", Json.arr (action.classes.map Json.str)),
                   ("method", Json.str action.method.value),
                   ("href", Json.str action.target),
                   ("title", optJson action.title),
                   ("type", optJson action.encoding_type),
                   ("fields", Json.arr fields)])
  | .error _ => .error ⟨.valueError, "Failed to marshal action's fields"⟩

/-- JSONMarshaler.marshal_link applied to a domain Link: every attribute
access and iteration succeeds, so the result is the five-key mapping. -/
def marshal_link (link : Link) : Except PyErr Json :=
  .ok (Json.obj [("rel", Json.arr (link.relations.map Json.str)),
                 ("class", Json.arr (link.classes.map Json.str)),
                 ("href", Json.str link.target),
                 ("title", optJson link.title),
                 ("type", optJson link.target_media_type)])

/-- JSONMarshaler.marshal_embedded_link applied to a domain EmbeddedLink. -/
def marshal_embedded_link (embedded_link : EmbeddedLink) : Except PyErr Json :=
  .ok (Json.obj [("rel", Json.arr (embedded_link.relations.map Json.str)),
                 ("class", Json.arr (embedded_link.classes.map Json.str)),
                 ("href", Json.str embedded_link.target),
                 ("title", optJson embedded_link.title),
                 ("type", optJson embedded_link.target_media_type)])

/-- The json.loads(json.dumps(properties)) step of marshal_entity and
marshal_embedded_representation: a TypeError (value not serializable)
becomes the given ValueError. -/
def marshal_properties_step (properties : PyVal) (msg : String) : Except PyErr Json :=
  match dumpsLoads properties with
  | some adjusted => .ok adjusted
  | Option.none => .error ⟨.valueError, msg⟩

mutual
/-- JSONMarshaler.marshal_embedded_representation applied to a domain
EmbeddedRepresentation: relations and classes are string lists, the
properties are JSON-round-tripped (failure wrapped with the representation
message), the sub-entities are dispatched via _marshal_sub_entity (any
ValueError wrapped as "Failed to marshal sub entities of the embedded
representation"), links and actions are delegated elementwise with their
wrap messages, the title is None or a string. -/
def marshal_embedded_representation (embedded_representation : EmbeddedRepresentation) :
    Except PyErr Json :=
  match embedded_representation with
  | .mk relations classes properties entities links actions title =>
    match marshal_properties_step (Json.toPy (Json.obj properties))
        "Failed to marshal properties of the embedded representation" with
    | .error e => .error e
    | .ok props =>
      match marshalSubList entities with
      | .error _ =>
        .error ⟨.valueError, "Failed to marshal sub entities of the embedded representation"⟩
      | .ok subs =>
        match links.mapM marshal_link with
        | .error _ =>
          .error ⟨.valueError, "Failed to marshal links of the embedded representation"⟩
        | .ok marshaled_links =>
          match actions.mapM marshal_action with
          | .error _ =>
            .error ⟨.valueError, "Failed to marshal actions of the embedded representation"⟩
          | .ok marshaled_actions =>
            .ok (Json.obj [("rel", Json.arr (relations.map Json.str)),
                           ("class", Json.arr (classes.map Json.str)),
                           ("properties", props),
                           ("entities", Json.arr subs),
                           ("links", Json.arr marshaled_links),
                           ("actions", Json.arr marshaled_actions),
                           ("title", optJson title)])

/-- The sub-entity comprehension of marshal_entity /
marshal_embedded_representation: each sub-entity through
_marshal_sub_entity, failing on the first failure (the caller wraps it). -/
def marshalSubList : List SubEntity → Except PyErr (List Json)
  | [] => .ok []
  | s :: rest =>
    match marshal_sub_entity s with
    | .error e => .error e
    | .ok j =>
      match marshalSubList rest with
      | .error e => .error e
      | .ok js => .ok (j :: js)

/-- JSONMarshaler._marshal_sub_entity (lila/serialization/json/marshaler.py):
try sub_entity.target - an EmbeddedLink has the attribute and is marshaled
as an embedded link, an EmbeddedRepresentation raises AttributeError and is
marshaled as an embedded representation. -/
def marshal_sub_entity : SubEntity → Except PyErr Json
  | .link l => marshal_embedded_link l
  | .representation r => marshal_embedded_representation r
end

/-- JSONMarshaler.marshal_entity applied to a domain Entity: classes,
JSON-round-tripped properties (failure wrapped as "Failed to marshal
entity's properties"), sub-entities via _marshal_sub_entity (wrapped as
"Failed to marshal sub entities of the entity"), links and actions
elementwise with their wrap messages, then the six-key mapping. -/
def marshal_entity (entity : Entity) : Except PyErr Json :=
  match marshal_properties_step (Json.toPy (Json.obj entity.properties))
      "Failed to marshal entity's properties" with
  | .error e => .error e
  | .ok props =>
    match marshalSubList entity.entities with
    | .error _ => .error ⟨.valueError, "Failed to marshal sub entities of the entity"⟩
    | .ok subs =>
      match entity.links.mapM marshal_link with
      | .error _ => .error ⟨.valueError, "Failed to marshal entity's links"⟩
      | .ok marshaled_links =>
        match entity.actions.mapM marshal_action with
        | .error _ => .error ⟨.valueError, "Failed to marshal entity's actions"⟩
        | .ok marshaled_actions =>
          .ok (Json.obj [("class", Json.arr (entity.classes.map Json.str)),
                         ("properties", props),
                         ("entities", Json.arr subs),
                         ("links", Json.arr marshaled_links),
                         ("actions", Json.arr marshaled_actions),
                         ("title", optJson entity.title)])

/-- Which facade operation a sub-entity dispatch selects. -/
inductive SubEntityRoute where
  | embeddedLink
  | embeddedRepresentation
deriving Repr, DecidableEq

/-- The dispatch decision of JSONMarshaler._marshal_sub_entity
(lila/serialization/json/marshaler.py, lines 548-568): a sub-entity whose
target attribute access succeeds (an EmbeddedLink) goes to
marshal_embedded_link; one whose access raises AttributeError (an
EmbeddedRepresentation) goes to marshal_embedded_representation. -/
def marshaler_sub_entity_route : SubEntity → SubEntityRoute
  | .link _ => .embeddedLink
  | .representation _ => .embeddedRepresentation

/-- The dispatch decision of _marshal_sub_entity in
lila/serialization/json/entity.py (lines 401-418), used by
EntityMarshaler.marshal_entities and
EmbeddedRepresentationMarshaler.marshal_entities: hasattr(sub_entity,
"target") - true for an EmbeddedLink - selects
marshaler.marshal_embedded_representation, and a sub-entity without the
attribute (an EmbeddedRepresentation) goes to
marshaler.marshal_embedded_link. -/
def entity_module_sub_entity_route : SubEntity → SubEntityRoute
  | .link _ => .embeddedRepresentation
  | .representation _ => .embeddedLink

/-- The routes EntityMarshaler.marshal_entities
(lila/serialization/json/entity.py) takes for the sub-entities of the
wrapped entity, in order. -/
def EntityMarshaler.marshal_entities_routes (entities : List SubEntity) :
    List SubEntityRoute :=
  entities.map entity_module_sub_entity_route

/-- Binding a successful Except computation runs the continuation. -/
theorem except_bind_ok {α β : Type} (a : α) (f : α → Except PyErr β) :
    (Except.ok a >>= f : Except PyErr β) = f a := rfl

/-- Binding a failed Except computation short-circuits. -/
theorem except_bind_error {α β : Type} (e : PyErr) (f : α → Except PyErr β) :
    (Except.error e >>= f : Except PyErr β) = Except.error e := rfl

/-- A successful bind factors into a successful step and a successful
continuation. -/
theorem except_bind_eq_ok {α β : Type} {x : Except PyErr α}
    {f : α → Except PyErr β} {b : β} (h : (x >>= f) = .ok b) :
    ∃ a, x = .ok a ∧ f a = .ok b := by
  cases x with
  | ok a => exact ⟨a, rfl, h⟩
  | error e => rw [except_bind_error] at h; cases h

/-- Str() of an InputType member is never a recognized InputType wire
value: the default enum rendering "InputType.MEMBER" matches no member's
value. -/
theorem inputTypeOfValue_pyStr (t : InputType) :
    inputTypeOfValue t.pyStr = Option.none := by
  cases t <;> rfl

/-- C1: the claim asserts that parsing the result of marshaling any domain
object yields an object deeply equal to the original.  The code violates
this: JSONMarshaler.marshal_field computes InputType(str(field.input_type)),
and str() of an InputType member is "InputType.MEMBER" (lila/core/field.py
defines no custom string conversion), which InputType() rejects - so
marshaling any Field (and hence any Action or Entity containing one) fails
with ValueError "Field's input type is not supported" and the round trip
can never return the original object. -/
theorem marshal_field_never_succeeds (field : Field) :
    marshal_field field =
      .error ⟨.valueError, "Field's input type is not supported"⟩ := by
  unfold marshal_field
  rw [inputTypeOfValue_pyStr]

/-- C2: the claim asserts that a sub-entity with a target attribute is
marshaled via marshal_embedded_link and one without via
marshal_embedded_representation.  The dispatch in
lila/serialization/json/entity.py (_marshal_sub_entity, used by
EntityMarshaler.marshal_entities) does the exact inverse, while the
dispatch in lila/serialization/json/marshaler.py follows the claim. -/
theorem entity_module_sub_entity_dispatch_inverted (l : EmbeddedLink)
    (r : EmbeddedRepresentation) :
    entity_module_sub_entity_route (SubEntity.link l) =
      SubEntityRoute.embeddedRepresentation ∧
    entity_module_sub_entity_route (SubEntity.representation r) =
      SubEntityRoute.embeddedLink ∧
    marshaler_sub_entity_route (SubEntity.link l) = SubEntityRoute.embeddedLink ∧
    marshaler_sub_entity_route (SubEntity.representation r) =
      SubEntityRoute.embeddedRepresentation ∧
    EntityMarshaler.marshal_entities_routes [SubEntity.link l] =
      [SubEntityRoute.embeddedRepresentation] :=
  ⟨rfl, rfl, rfl, rfl, rfl⟩

/-- C4: the claim asserts marshal_field(Field(name="q",
input_type=InputType.SEARCH, value="abc")) = the five-key mapping with
"type": "search".  The code instead fails: str(InputType.SEARCH) is
"InputType.SEARCH", which InputType() rejects, so marshal_field raises
ValueError "Field's input type is not supported" (the repository's own
test_marshal_field.test_input_type expects the claimed mapping). -/
theorem marshal_field_search_scenario_fails :
    marshal_field ⟨"q", [], InputType.search, some "abc", Option.none⟩ =
      .error ⟨.valueError, "Field's input type is not supported"⟩ := rfl

/-- The entity properties of the C6 scenario: a dict with the integer key 1
and a tuple-valued entry. -/
def properties_sample : PyVal :=
  PyVal.dict [(PyVal.int 1, PyVal.str "v"),
              (PyVal.str "list", PyVal.tuple [PyVal.int 1, PyVal.str "2"])]

/-- A stand-in properties mapping holding a value json cannot serialize. -/
def bad_properties : PyVal :=
  PyVal.dict [(PyVal.str "bad", PyVal.object "opaque")]

/-- C6 counterexample: the claim asserts that marshaling an Entity holding
a non-JSON-representable property value fails with a MarshalError naming
the offending key.  The marshal-time properties step of
JSONMarshaler.marshal_entity fails with the fixed message "Failed to
marshal entity's properties", which does not contain the key "bad" (the
key is no substring of the message). -/
theorem marshal_properties_error_names_no_key :
    marshal_properties_step bad_properties "Failed to marshal entity's properties" =
      .error ⟨.valueError, "Failed to marshal entity's properties"⟩ ∧
    ¬ ("bad".toList <:+: ("Failed to marshal entity's properties").toList) :=
  ⟨rfl, by decide⟩

/-- C6 as amended: constructing an Entity with properties
dict(1: "v", "list": (1, "2")) and marshaling it yields the properties
value with the key stringified and the tuple converted to an array; the
key-naming failure "Unsupported value for property 'bad'" is raised by
adjust_properties at Entity construction, while the marshal-time
properties step on a stand-in holding a non-serializable value fails with
"Failed to marshal entity's properties" (no key named). -/
theorem entity_properties_normalization :
    (do
      let entity ← mkEntity (Json.arr []) properties_sample [] [] [] Json.null
      marshal_entity entity) =
      .ok (Json.obj [("class", Json.arr []),
                     ("properties", Json.obj [("1", Json.str "v"),
                                              ("list", Json.arr [Json.num 1, Json.str "2"])]),
                     ("entities", Json.arr []),
                     ("links", Json.arr []),
                     ("actions", Json.arr []),
                     ("title", Json.null)]) ∧
    adjust_properties bad_properties =
      .error ⟨.valueError, "Unsupported value for property 'bad'"⟩ ∧
    marshal_properties_step bad_properties "Failed to marshal entity's properties" =
      .error ⟨.valueError, "Failed to marshal entity's properties"⟩ :=
  ⟨rfl, rfl, rfl⟩

/-- C7 counterexample: the claim asserts that parsing the empty object as a
Field yields a Field with defaults; JSONParser.parse_field instead requires
the name key and fails with ValueError "Field data do not have required
'name' key". -/
theorem parse_field_empty_object_fails :
    parse_field (PyVal.dict []) =
      .error ⟨.valueError, "Field data do not have required 'name' key"⟩ := rfl

/-- C7 as amended: parsing a Field from an object carrying only the
required name key applies all the documented defaults - input_type TEXT,
value null, title null, classes empty. -/
theorem parse_field_defaults_with_name (s : String) :
    parse_field (PyVal.dict [(PyVal.str "name", PyVal.str s)]) =
      .ok ⟨s, [], InputType.text, Option.none, Option.none⟩ := rfl

/-- The C3 scenario's first entities item: a mapping with an href key. -/
def sample_link_item : Json :=
  Json.obj [("href", Json.str "/x"), ("rel", Json.arr [Json.str "a"])]

/-- The C3 scenario's second entities item: a mapping without an href key. -/
def sample_repr_item : Json :=
  Json.obj [("rel", Json.arr [Json.str "b"])]

/-- The C3 scenario's entity data, as raw Python input. -/
def sample_entities_data : PyVal :=
  PyVal.dict [(PyVal.str "entities", PyVal.list [
    PyVal.dict [(PyVal.str "href", PyVal.str "/x"),
                (PyVal.str "rel", PyVal.list [PyVal.str "a"])],
    PyVal.dict [(PyVal.str "rel", PyVal.list [PyVal.str "b"])]])]

/-- The C3 scenario's entity data after _ensure_json. -/
def sample_entities_json : Json :=
  Json.obj [("entities", Json.arr [sample_link_item, sample_repr_item])]

/-- The embedded link the C3 scenario's first item parses to. -/
def sample_embedded_link : EmbeddedLink :=
  ⟨["a"], "/x", [], Option.none, Option.none⟩

/-- The embedded representation the C3 scenario's second item parses to. -/
def sample_representation : EmbeddedRepresentation :=
  .mk ["b"] [] [] [] [] [] Option.none

/-- Evaluation step: the second item parses as an embedded representation. -/
theorem sample_repr_item_parses : parse_embedded_representation_data sample_repr_item =
    .ok sample_representation := by
  unfold parse_embedded_representation_data
  rfl

/-- Evaluation step: the first item is dispatched to the embedded-link
parser and parses. -/
theorem sample_link_item_sub_entity : parse_sub_entity_data sample_link_item =
    .ok (SubEntity.link sample_embedded_link) := by
  unfold parse_sub_entity_data
  rfl

/-- Evaluation step: the second item is dispatched to the
embedded-representation parser and parses. -/
theorem sample_repr_item_sub_entity : parse_sub_entity_data sample_repr_item =
    .ok (SubEntity.representation sample_representation) := by
  unfold parse_sub_entity_data
  rw [sample_repr_item_parses]
  rfl

/-- Evaluation step: the two items parse, in order, to the embedded link
and the embedded representation. -/
theorem sample_items_parse : parseSubItems (Json.arr [sample_link_item, sample_repr_item]) =
    .ok [SubEntity.link sample_embedded_link,
         SubEntity.representation sample_representation] := by
  simp only [parseSubItems, parseSubList, sample_link_item_sub_entity,
    sample_repr_item_sub_entity, except_bind_ok]

/-- C3: presence of the href key on a raw JSON mapping selects
parse_embedded_link and its absence selects parse_embedded_representation;
in particular, parsing an Entity whose entities list is
[(href: "/x", rel: ["a"]), (rel: ["b"])] yields the first sub-entity as an
EmbeddedLink and the second as an EmbeddedRepresentation. -/
theorem parse_sub_entity_discrimination :
    (∀ (kvs : List (String × Json)) (v : Json), lookupKey kvs "href" = some v →
      parse_sub_entity_data (Json.obj kvs) =
        (parse_embedded_link_data (Json.obj kvs)).map SubEntity.link) ∧
    (∀ (kvs : List (String × Json)), lookupKey kvs "href" = Option.none →
      parse_sub_entity_data (Json.obj kvs) =
        (parse_embedded_representation_data (Json.obj kvs)).map SubEntity.representation) ∧
    parse_entity sample_entities_data =
      .ok { classes := [], properties := [],
            entities := [SubEntity.link sample_embedded_link,
                         SubEntity.representation sample_representation],
            links := [], actions := [], title := Option.none } := by
  refine ⟨?_, ?_, ?_⟩
  · intro kvs v hv
    unfold parse_sub_entity_data
    simp only [getItem, hv]
  · intro kvs h
    unfold parse_sub_entity_data
    simp only [getItem, h]
  · unfold parse_entity
    rw [show ensure_json sample_entities_data = Except.ok sample_entities_json from rfl]
    rw [except_bind_ok]
    unfold parse_entity_data
    rw [show dictGet sample_entities_json "class" (Json.arr []) =
          Except.ok (Json.arr []) from rfl]
    rw [except_bind_ok]
    rw [show dictGet sample_entities_json "properties" (Json.obj []) =
          Except.ok (Json.obj []) from rfl]
    rw [except_bind_ok]
    rw [show dictGet sample_entities_json "entities" (Json.arr []) =
          Except.ok (Json.arr [sample_link_item, sample_repr_item]) from rfl]
    rw [except_bind_ok]
    rw [show wrapParseErrors
          (parseSubItems (Json.arr [sample_link_item, sample_repr_item]))
          "Failed to parse sub entities of entity" =
          Except.ok [SubEntity.link sample_embedded_link,
                     SubEntity.representation sample_representation] from by
      rw [sample_items_parse]
      rfl]
    rw [except_bind_ok]
    rfl

/-- C3 witness: the dispatch at the scenario's two concrete items. -/
theorem parse_sub_entity_discrimination_witness :
    parse_sub_entity_data (Json.obj [("href", Json.str "/x"), ("rel", Json.arr [Json.str "a"])]) =
      (parse_embedded_link_data
        (Json.obj [("href", Json.str "/x"), ("rel", Json.arr [Json.str "a"])])).map
        SubEntity.link ∧
    parse_sub_entity_data (Json.obj [("rel", Json.arr [Json.str "b"])]) =
      (parse_embedded_representation_data
        (Json.obj [("rel", Json.arr [Json.str "b"])])).map SubEntity.representation :=
  ⟨parse_sub_entity_discrimination.1 _ (Json.str "/x") rfl,
   parse_sub_entity_discrimination.2.1 _ rfl⟩

/-- C9 counterexample: the claim asserts every parse accessor on
non-mapping wrapped data fails with a ParseError "failed to get X from Y
data"; JSONParser.parse_field applied to the JSON number 5 (which
_ensure_json accepts) instead propagates the raw TypeError from
subscripting a non-mapping - not a ValueError and not that message. -/
theorem parse_field_non_mapping_type_error :
    parse_field (PyVal.int 5) =
      .error ⟨.typeError, "data are not subscriptable by string keys"⟩ ∧
    ErrKind.typeError ≠ ErrKind.valueError :=
  ⟨rfl, by decide⟩

/-- Subscripting any non-dict Python value raises TypeError. -/
theorem pySubscript_non_mapping (data : PyVal)
    (h : ∀ entries, data ≠ PyVal.dict entries) (key : String) :
    pySubscript data key =
      .error ⟨.typeError, "data are not subscriptable by string keys"⟩ := by
  cases data <;> first | rfl | exact absurd rfl (h _)

/-- C9 as amended: the per-component ActionParser accessors each convert
the TypeError from subscripting non-mapping data into ValueError "Failed to
get X from action data" (X naming the attribute, for the action component),
while the flat JSONParser.parse_field propagates the TypeError unwrapped. -/
theorem action_parser_accessors_on_non_mapping (data : PyVal)
    (h : ∀ entries, data ≠ PyVal.dict entries) :
    ActionParser.parse_name data =
      .error ⟨.valueError, "Failed to get name from action data"⟩ ∧
    ActionParser.parse_classes data =
      .error ⟨.valueError, "Failed to get classes from action data"⟩ ∧
    ActionParser.parse_method data =
      .error ⟨.valueError, "Failed to get method from action data"⟩ ∧
    ActionParser.parse_target data =
      .error ⟨.valueError, "Failed to get target from action data"⟩ ∧
    ActionParser.parse_title data =
      .error ⟨.valueError, "Failed to get title from action data"⟩ ∧
    ActionParser.parse_encoding_type data =
      .error ⟨.valueError, "Failed to get encoding type from action data"⟩ ∧
    ActionParser.parse_fields data =
      .error ⟨.valueError, "Failed to get fields data from action data"⟩ := by
  refine ⟨?_, ?_, ?_, ?_, ?_, ?_, ?_⟩ <;>
    simp only [ActionParser.parse_name, ActionParser.parse_classes,
      ActionParser.parse_method, ActionParser.parse_target,
      ActionParser.parse_title, ActionParser.parse_encoding_type,
      ActionParser.parse_fields, pySubscript_non_mapping data h]

/-- C9 witness: the seven accessors at the concrete non-mapping input 7. -/
theorem action_parser_accessors_on_non_mapping_witness :
    ActionParser.parse_name (PyVal.int 7) =
      .error ⟨.valueError, "Failed to get name from action data"⟩ ∧
    ActionParser.parse_classes (PyVal.int 7) =
      .error ⟨.valueError, "Failed to get classes from action data"⟩ ∧
    ActionParser.parse_method (PyVal.int 7) =
      .error ⟨.valueError, "Failed to get method from action data"⟩ ∧
    ActionParser.parse_target (PyVal.int 7) =
      .error ⟨.valueError, "Failed to get target from action data"⟩ ∧
    ActionParser.parse_title (PyVal.int 7) =
      .error ⟨.valueError, "Failed to get title from action data"⟩ ∧
    ActionParser.parse_encoding_type (PyVal.int 7) =
      .error ⟨.valueError, "Failed to get encoding type from action data"⟩ ∧
    ActionParser.parse_fields (PyVal.int 7) =
      .error ⟨.valueError, "Failed to get fields data from action data"⟩ :=
  action_parser_accessors_on_non_mapping (PyVal.int 7)
    (fun _ hh => PyVal.noConfusion hh)

/-- C10: every JSONParser.parse operation applied to data the JSON codec
cannot serialize fails with ValueError "Specified data are not a valid JSON
object": _ensure_json runs first, so the rejection precedes any key access
(the theorem holds whatever keys the data carry). -/
theorem parse_rejects_non_json_data (data : PyVal)
    (h : dumpsLoads data = Option.none) :
    parse_field data = .error ⟨.valueError, "Specified data are not a valid JSON object"⟩ ∧
    parse_action data = .error ⟨.valueError, "Specified data are not a valid JSON object"⟩ ∧
    parse_link data = .error ⟨.valueError, "Specified data are not a valid JSON object"⟩ ∧
    parse_embedded_link data =
      .error ⟨.valueError, "Specified data are not a valid JSON object"⟩ ∧
    parse_entity data = .error ⟨.valueError, "Specified data are not a valid JSON object"⟩ ∧
    parse_embedded_representation data =
      .error ⟨.valueError, "Specified data are not a valid JSON object"⟩ := by
  refine ⟨?_, ?_, ?_, ?_, ?_, ?_⟩ <;>
    simp only [parse_field, parse_action, parse_link, parse_embedded_link,
      parse_entity, parse_embedded_representation, ensure_json, h,
      except_bind_error]

/-- C10 witness: a dict that carries a name key but also a set value is
rejected whole, before any key is read. -/
theorem parse_rejects_non_json_data_witness :
    parse_field (PyVal.dict [(PyVal.str "name", PyVal.str "x"),
        (PyVal.str "bad", PyVal.set [])]) =
      .error ⟨.valueError, "Specified data are not a valid JSON object"⟩ ∧
    parse_entity (PyVal.dict [(PyVal.str "name", PyVal.str "x"),
        (PyVal.str "bad", PyVal.set [])]) =
      .error ⟨.valueError, "Specified data are not a valid JSON object"⟩ :=
  ⟨(parse_rejects_non_json_data (PyVal.dict [(PyVal.str "name", PyVal.str "x"),
      (PyVal.str "bad", PyVal.set [])]) rfl).1,
   (parse_rejects_non_json_data (PyVal.dict [(PyVal.str "name", PyVal.str "x"),
      (PyVal.str "bad", PyVal.set [])]) rfl).2.2.2.2.1⟩

/-- C8: an unrecognized method value on Action data, and an unrecognized
type value on Field data, are rejected with the stable messages of
JSONParser ("Unsupported method / input type is specified") and of the
component ActionParser ("Action data contain not supported method"), and in
each case the parse returns that error whatever else the data hold - the
domain constructor is never invoked. -/
theorem unsupported_method_or_input_type_rejected :
    (∀ (kvs : List (String × Json)) (name v : Json),
      lookupKey kvs "name" = some name →
      lookupKey kvs "method" = some v →
      findMethodJson v = Option.none →
      parse_action_data (Json.obj kvs) =
        .error ⟨.valueError, "Unsupported method is specified"⟩) ∧
    (∀ (kvs : List (String × Json)) (name v : Json),
      lookupKey kvs "name" = some name →
      lookupKey kvs "type" = some v →
      inputTypeOfValue (pyStr v) = Option.none →
      parse_field_data (Json.obj kvs) =
        .error ⟨.valueError, "Unsupported input type is specified"⟩) ∧
    (∀ (entries : List (PyVal × PyVal)) (v : PyVal),
      pySubscript (PyVal.dict entries) "method" = .ok v →
      findMethodPy v = Option.none →
      ActionParser.parse_method (PyVal.dict entries) =
        .error ⟨.valueError, "Action data contain not supported method"⟩) := by
  refine ⟨?_, ?_, ?_⟩
  · intro kvs name v hname hv hfind
    unfold parse_action_data
    simp only [requiredKey, getItem, hname, dictGet, hv, Option.getD, hfind,
      except_bind_ok, except_bind_error]
  · intro kvs name v hname hv hfind
    unfold parse_field_data
    simp only [requiredKey, getItem, hname, dictGet, hv, Option.getD, hfind,
      except_bind_ok, except_bind_error]
  · intro entries v hsub hfind
    unfold ActionParser.parse_method
    rw [hsub]
    simp only [hfind]

/-- C8 witness: the rejections at concrete data with method "TRACE" and
input type "foo". -/
theorem unsupported_method_or_input_type_rejected_witness :
    parse_action_data (Json.obj [("name", Json.str "a"), ("method", Json.str "TRACE")]) =
      .error ⟨.valueError, "Unsupported method is specified"⟩ ∧
    parse_field_data (Json.obj [("name", Json.str "f"), ("type", Json.str "foo")]) =
      .error ⟨.valueError, "Unsupported input type is specified"⟩ ∧
    ActionParser.parse_method (PyVal.dict [(PyVal.str "method", PyVal.str "TRACE")]) =
      .error ⟨.valueError, "Action data contain not supported method"⟩ :=
  ⟨unsupported_method_or_input_type_rejected.1
      [("name", Json.str "a"), ("method", Json.str "TRACE")]
      (Json.str "a") (Json.str "TRACE") rfl rfl rfl,
   unsupported_method_or_input_type_rejected.2.1
      [("name", Json.str "f"), ("type", Json.str "foo")]
      (Json.str "f") (Json.str "foo") rfl rfl rfl,
   unsupported_method_or_input_type_rejected.2.2
      [(PyVal.str "method", PyVal.str "TRACE")]
      (PyVal.str "TRACE") rfl rfl⟩

/-- Every Method member's wire value is in _SUPPORTED_METHODS. -/
theorem supported_methods_contains (method : Method) :
    supported_methods.contains method.value = true := by
  cases method <;> rfl

/-- A failed first step never yields a successful bind. -/
theorem except_bind_error_ne_ok {α β : Type} (e : PyErr) (f : α → Except PyErr β)
    (b : β) : (Except.error e >>= f : Except PyErr β) ≠ .ok b :=
  fun h => Except.noConfusion h

/-- C5: parsing Action data without a type key yields an action whose
encoding type is "application/x-www-form-urlencoded" exactly when the
parsed fields are non-empty, and null otherwise - in JSONParser.parse_action
(where the default comes from the Action constructor) and in
ActionParser.parse_encoding_type (where it comes from self.parse_fields()). -/
theorem parse_action_encoding_type_defaults :
    (∀ (kvs : List (String × Json)) (a : Action),
      lookupKey kvs "type" = Option.none →
      parse_action_data (Json.obj kvs) = .ok a →
      a.encoding_type = if a.fields.isEmpty then Option.none
                        else some "application/x-www-form-urlencoded") ∧
    (∀ (entries : List (PyVal × PyVal)) (fs : List Field),
      pySubscript (PyVal.dict entries) "type" = .error ⟨.keyError, "type"⟩ →
      ActionParser.parse_fields (PyVal.dict entries) = .ok fs →
      ActionParser.parse_encoding_type (PyVal.dict entries) =
        .ok (if fs.isEmpty then Option.none
             else some "application/x-www-form-urlencoded")) := by
  constructor
  · intro kvs a htype hok
    unfold parse_action_data at hok
    cases hname : requiredKey (Json.obj kvs) "name"
        "Action data do not have required 'name' key" with
    | error e =>
      rw [hname] at hok
      exact absurd hok (except_bind_error_ne_ok e _ a)
    | ok name =>
      rw [hname] at hok
      simp only [dictGet, except_bind_ok] at hok
      cases hfm : findMethodJson ((lookupKey kvs "method").getD (Json.str "GET")) with
      | none =>
        rw [hfm] at hok
        exact Except.noConfusion hok
      | some method =>
        rw [hfm] at hok
        simp only [except_bind_ok] at hok
        cases htg : requiredKey (Json.obj kvs) "href"
            "Action data do not have required 'href' key" with
        | error e =>
          rw [htg] at hok
          exact absurd hok (except_bind_error_ne_ok e _ a)
        | ok target =>
          rw [htg] at hok
          simp only [dictGet, except_bind_ok] at hok
          rw [htype] at hok
          simp only [Option.getD_none] at hok
          cases hfl : parseItemList ((lookupKey kvs "fields").getD (Json.arr []))
              parse_field_data "Failed to parse action fields" with
          | error e =>
            rw [hfl] at hok
            exact absurd hok (except_bind_error_ne_ok e _ a)
          | ok fields =>
            rw [hfl] at hok
            simp only [except_bind_ok] at hok
            unfold mkAction at hok
            cases hcl : adjust_classes ((lookupKey kvs "class").getD (Json.arr [])) with
            | error e =>
              rw [hcl] at hok
              exact absurd hok (except_bind_error_ne_ok e _ a)
            | ok cls =>
              rw [hcl] at hok
              simp only [except_bind_ok, supported_methods_contains, reduceIte] at hok
              injection hok with hok
              subst hok
              rfl
  · intro entries fs hsub hfs
    unfold ActionParser.parse_encoding_type
    rw [hsub]
    simp only [hfs, except_bind_ok]

/-- C5 witness: the spec's parse scenario (name "a1", href "/do", one field,
no type key) receives encoding type "application/x-www-form-urlencoded",
and the component parser at data holding one field and no type key does
too. -/
theorem parse_action_encoding_type_defaults_witness :
    (Action.mk "a1" "/do" [] Method.get Option.none
        [⟨"f", [], InputType.text, Option.none, Option.none⟩]
        (some "application/x-www-form-urlencoded")).encoding_type =
      (if (Action.mk "a1" "/do" [] Method.get Option.none
        [⟨"f", [], InputType.text, Option.none, Option.none⟩]
        (some "application/x-www-form-urlencoded")).fields.isEmpty then Option.none
       else some "application/x-www-form-urlencoded") ∧
    ActionParser.parse_encoding_type
        (PyVal.dict [(PyVal.str "fields",
          PyVal.list [PyVal.dict [(PyVal.str "name", PyVal.str "f")]])]) =
      .ok (if ([⟨"f", [], InputType.text, Option.none, Option.none⟩] :
              List Field).isEmpty then Option.none
           else some "application/x-www-form-urlencoded") :=
  ⟨parse_action_encoding_type_defaults.1
      [("name", Json.str "a1"), ("href", Json.str "/do"),
       ("fields", Json.arr [Json.obj [("name", Json.str "f")]])]
      (Action.mk "a1" "/do" [] Method.get Option.none
        [⟨"f", [], InputType.text, Option.none, Option.none⟩]
        (some "application/x-www-form-urlencoded")) rfl rfl,
   parse_action_encoding_type_defaults.2
      [(PyVal.str "fields", PyVal.list [PyVal.dict [(PyVal.str "name", PyVal.str "f")]])]
      [⟨"f", [], InputType.text, Option.none, Option.none⟩] rfl rfl⟩

end Lila
